import Mathlib

/-!
Verification of the support-end-notifier program (src/support-end-notifier.py).

Python `datetime.datetime` values are timezone-naive with microsecond
resolution; we embed them as integers counting microseconds since the epoch
1970-01-01T00:00:00.  `datetime.timedelta` arithmetic and comparison then
become plain integer arithmetic; `timedelta.days` is floor division by the
number of microseconds per day (Python timedelta normalisation floors).
Calendar dates are converted to and from day numbers with the standard civil
calendar algorithms, matching Python's proleptic Gregorian calendar.
-/

/-- Microseconds per second (Python datetime resolution). -/
def USEC_PER_SEC : Int := 1000000

/-- Microseconds per day: `timedelta(days=1)` in microseconds. -/
def USEC_PER_DAY : Int := 86400000000

/-- Source line 29: `WARN_DAYS = [30, 20, 10, 6, 5, 4, 3, 2, 1]`. -/
def WARN_DAYS : List Int := [30, 20, 10, 6, 5, 4, 3, 2, 1]

/-- Gregorian leap-year test, as in Python's `calendar`/`datetime`. -/
def is_leap (y : Int) : Bool :=
  Int.emod y 4 = 0 && (Int.emod y 100 ≠ 0 || Int.emod y 400 = 0)

/-- Number of days in month `m` of year `y` (Python `datetime` validation). -/
def days_in_month (y m : Int) : Int :=
  if m = 2 then (if is_leap y then 29 else 28)
  else if m = 4 ∨ m = 6 ∨ m = 9 ∨ m = 11 then 30
  else 31

/-- Days since 1970-01-01 of the civil date `(y, m, d)` (proleptic Gregorian
calendar, standard days-from-civil algorithm, floor division throughout). -/
def days_from_civil (y m d : Int) : Int :=
  let y' := if m ≤ 2 then y - 1 else y
  let era := Int.fdiv y' 400
  let yoe := y' - era * 400
  let mp := if 2 < m then m - 3 else m + 9
  let doy := Int.fdiv (153 * mp + 2) 5 + (d - 1)
  let doe := yoe * 365 + Int.fdiv yoe 4 - Int.fdiv yoe 100 + doy
  era * 146097 + doe - 719468

/-- Civil date `(y, m, d)` of the day numbered `z` days after 1970-01-01
(inverse of `days_from_civil`). -/
def civil_from_days (z : Int) : Int × Int × Int :=
  let z' := z + 719468
  let era := Int.fdiv z' 146097
  let doe := z' - era * 146097
  let yoe := Int.fdiv (doe - Int.fdiv doe 1460 + Int.fdiv doe 36524 - Int.fdiv doe 146096) 365
  let y := yoe + era * 400
  let doy := doe - (365 * yoe + Int.fdiv yoe 4 - Int.fdiv yoe 100)
  let mp := Int.fdiv (5 * doy + 2) 153
  let d := doy - Int.fdiv (153 * mp + 2) 5 + 1
  let m := if mp < 10 then mp + 3 else mp - 9
  (if m ≤ 2 then y + 1 else y, m, d)

/-- Zero-pad the decimal rendering of a nonnegative integer to width `w`. -/
def padNum (w : Nat) (n : Int) : String :=
  let s := toString n.toNat
  String.mk (List.replicate (w - s.length) '0') ++ s

/-- Python `datetime.isoformat()` on the instant `t` (microseconds since the
epoch): `YYYY-MM-DDTHH:MM:SS`, with a `.ffffff` suffix only when the
microsecond component is nonzero. -/
def isoformat (t : Int) : String :=
  let day := Int.fdiv t USEC_PER_DAY
  let usod := t - day * USEC_PER_DAY
  let c := civil_from_days day
  let usec := Int.emod usod USEC_PER_SEC
  let totsec := Int.fdiv usod USEC_PER_SEC
  let ss := Int.emod totsec 60
  let mi := Int.emod (Int.fdiv totsec 60) 60
  let hh := Int.fdiv totsec 3600
  padNum 4 c.1 ++ "-" ++ padNum 2 c.2.1 ++ "-" ++ padNum 2 c.2.2 ++ "T" ++
    padNum 2 hh ++ ":" ++ padNum 2 mi ++ ":" ++ padNum 2 ss ++
    (if usec = 0 then "" else "." ++ padNum 6 usec)

/-- A single scheduled-fire instruction, either relative-delay
(`OnActiveSec`) or absolute-time (`OnCalendar`).  The source yields the
rendered directive strings directly; `TriggerSpec.render` recovers them. -/
inductive TriggerSpec where
  | onActiveSec (secs : Int)
  | onCalendar (time : Int)
deriving DecidableEq, Repr

/-- Serialisation of a trigger spec, exactly the f-strings of source lines
66 and 70: `OnActiveSec=60` and `OnCalendar={time.isoformat()}`. -/
def TriggerSpec.render : TriggerSpec → String
  | TriggerSpec.onActiveSec s => "OnActiveSec=" ++ toString s
  | TriggerSpec.onCalendar t => "OnCalendar=" ++ isoformat t

/-- Source lines 64-70 (`generate_times`).  The source samples `now()` once,
inside the comparison on line 65; here that sample is the explicit first
argument (see `generate_times_clocked` for the sampling discipline).  The
generator's yields become a list of trigger specs. -/
def generate_times (now enddate : Int) : List TriggerSpec :=
  if enddate - now < USEC_PER_DAY then
    [TriggerSpec.onActiveSec 60]
  else
    WARN_DAYS.map (fun days => TriggerSpec.onCalendar (enddate - days * USEC_PER_DAY))

/-- The directive lines the generator yields, as the source produces them
(rendered strings). -/
def generate_times_lines (now enddate : Int) : List String :=
  (generate_times now enddate).map TriggerSpec.render

/-- Source lines 80-86: the lines `generate_units` writes into the
`support-end.timer` file, in order: the `[Timer]` header, then each yielded
spec on its own line. -/
def generate_units_timer_lines (now enddate : Int) : List String :=
  "[Timer]" :: generate_times_lines now enddate

/-- Clocked model of `generate_times` for the purity claim: `clock` is the
stream of values `datetime.datetime.today()` would return on successive
calls, `k` the index of the next sample.  The body mirrors lines 64-70 with
its single `now()` call made explicit; the result pairs the yielded specs
with the updated sample index. -/
def generate_times_clocked (clock : Nat → Int) (k : Nat) (enddate : Int) :
    List TriggerSpec × Nat :=
  let n := clock k
  let k' := k + 1
  if enddate - n < USEC_PER_DAY then
    ([TriggerSpec.onActiveSec 60], k')
  else
    (WARN_DAYS.map (fun days => TriggerSpec.onCalendar (enddate - days * USEC_PER_DAY)), k')

/-- The absolute times carried by the `onCalendar` entries of a spec list. -/
def calendarTimes (l : List TriggerSpec) : List Int :=
  l.filterMap fun s =>
    match s with
    | TriggerSpec.onCalendar t => some t
    | _ => none

/-- Split a character list at every dash, keeping empty segments, as
`str.split('-')` does. -/
def splitOnDash : List Char → List (List Char)
  | [] => [[]]
  | c :: cs =>
    let r := splitOnDash cs
    if c = '-' then [] :: r
    else
      match r with
      | [] => [[c]]
      | g :: gs => (c :: g) :: gs

/-- Decimal value of a digit list. -/
def digitsToNat (cs : List Char) : Nat :=
  cs.foldl (fun n c => n * 10 + (c.toNat - 48)) 0

/-- Python `strptime(val, '%Y-%m-%d')` as an optional parse: `%Y` matches
exactly four digits, `%m` one or two digits with value 1-12, `%d` one or two
digits with value 1-31, separated by literal dashes with nothing left over;
the `datetime` constructor then requires year at least 1 and the day valid
for the month.  Success yields midnight of that date in microseconds since
the epoch. -/
def parse_date (s : String) : Option Int :=
  match splitOnDash s.data with
  | [ys, ms, ds] =>
    if ys.length = 4 && ys.all Char.isDigit &&
       decide (1 ≤ ms.length) && decide (ms.length ≤ 2) && ms.all Char.isDigit &&
       decide (1 ≤ ds.length) && decide (ds.length ≤ 2) && ds.all Char.isDigit then
      let y : Int := (digitsToNat ys : Nat)
      let m : Int := (digitsToNat ms : Nat)
      let d : Int := (digitsToNat ds : Nat)
      if 1 ≤ y ∧ 1 ≤ m ∧ m ≤ 12 ∧ 1 ≤ d ∧ d ≤ days_in_month y m then
        some (days_from_civil y m d * USEC_PER_DAY)
      else none
    else none
  | _ => none

/-- The resolution failures of `support_end`: `KeyError` from the os-release
field lookup on line 54, `ValueError` from `strptime` on line 56. -/
inductive ConfigError where
  | keyError
  | valueError (val : String)
deriving DecidableEq, Repr

/-- Parse `v` as line 56 does, or fail with the `ValueError`. -/
def parse_or_error (v : String) : Except ConfigError Int :=
  match parse_date v with
  | some d => Except.ok d
  | none => Except.error (ConfigError.valueError v)

/-- Fallback of `support_end` when the override is absent or empty: look up
the `SUPPORT_END` field of os-release (lines 53-54; a missing field raises
`KeyError`) and parse it. -/
def support_end_from_osr (osr : Option String) : Except ConfigError Int :=
  match osr with
  | some v => parse_or_error v
  | none => Except.error ConfigError.keyError

/-- Source lines 50-56 (`support_end`): `env` is `os.getenv('SUPPORT_END')`
(`none` when unset), `osr` the `SUPPORT_END` field of
`platform.freedesktop_os_release()` (`none` when absent).  `if not val`
treats both an unset and an empty override as absent. -/
def support_end (env osr : Option String) : Except ConfigError Int :=
  match env with
  | some v => if v = "" then support_end_from_osr osr else parse_or_error v
  | none => support_end_from_osr osr

/-- The value `support_end` actually parses: the override when present and
nonempty, otherwise the os-release field. -/
def effective_value (env osr : Option String) : Option String :=
  match env with
  | some v => if v = "" then osr else some v
  | none => osr

/-- Source lines 120-127 (`do_notify`): the message handed to
`show_message`.  `left.days` is Python timedelta normalisation, floor
division of the microsecond difference by a day. -/
def do_notify_message (now enddate : Int) : String :=
  if enddate < now then "Support for this OS has ended"
  else "Support for this OS ends in " ++
    toString (Int.fdiv (enddate - now) USEC_PER_DAY) ++ " days"

/-- The parsed command line: the three optional positional directories and
the `--notify` flag (source lines 33-48). -/
structure Args where
  normal_dir : Option String
  early_dir : Option String
  late_dir : Option String
  notify : Bool
deriving DecidableEq, Repr

/-- Observable outcome of one `main` invocation (source lines 132-158):
which branch ran and what it emitted.  `statusOk`/`statusErr` are the status
printout, `usageError` the `exit(...)` call with nonzero status, `notified`
the message displayed, `generated` the lines written to the timer unit, and
`noop` the branches that fall through producing no output. -/
inductive MainResult where
  | statusOk (enddate : Int)
  | statusErr (err : ConfigError)
  | usageError (msg : String)
  | notified (msg : String)
  | generated (timerLines : List String)
  | noop
deriving DecidableEq, Repr

/-- Exit status of the process for a `main` outcome: Python `exit(msg)` with
a string exits with status 1; every other path falls off `main` with 0. -/
def main_exit_code : MainResult → Nat
  | MainResult.usageError _ => 1
  | _ => 0

/-- Source lines 132-158 (`main`; Lean reserves the name `main` for an IO entry point, hence the suffix): resolve the deadline (catching the
exception), then dispatch on the argument combination exactly as the
`if`/`elif` chain does.  `now` is the `datetime.datetime.today()` sample
used by whichever branch runs. -/
def main_dispatch (args : Args) (env osr : Option String) (now : Int) : MainResult :=
  let r := support_end env osr
  if args.notify = false ∧ args.normal_dir = none then
    match r with
    | Except.ok d => MainResult.statusOk d
    | Except.error e => MainResult.statusErr e
  else if args.notify = true ∧ args.normal_dir ≠ none then
    MainResult.usageError "No positional args are allowed with --notify"
  else
    match r with
    | Except.error _ => MainResult.noop
    | Except.ok d =>
      if args.notify then MainResult.notified (do_notify_message now d)
      else MainResult.generated (generate_units_timer_lines now d)

/-- Helper: a timestamp one whole number of days before a day-aligned
instant is still day-aligned. -/
theorem emod_day_sub_days (d k : Int) (h : Int.emod d USEC_PER_DAY = 0) :
    Int.emod (d - k * USEC_PER_DAY) USEC_PER_DAY = 0 := by
  have h1 : USEC_PER_DAY ∣ d := Int.dvd_of_emod_eq_zero h
  have h2 : USEC_PER_DAY ∣ (d - k * USEC_PER_DAY) := dvd_sub h1 (dvd_mul_left _ _)
  exact Int.emod_eq_zero_of_dvd h2

/-- C1: when at least one day remains, `generate_times` yields exactly the
nine absolute-time trigger specs `deadline - offset` for the offsets
30, 20, 10, 6, 5, 4, 3, 2, 1 days, in that fixed order, with strictly
increasing timestamps; no entry is dropped, regardless of `now`. -/
theorem generate_times_far_window (now enddate : Int)
    (h : USEC_PER_DAY ≤ enddate - now) :
    generate_times now enddate =
      [TriggerSpec.onCalendar (enddate - 30 * USEC_PER_DAY),
       TriggerSpec.onCalendar (enddate - 20 * USEC_PER_DAY),
       TriggerSpec.onCalendar (enddate - 10 * USEC_PER_DAY),
       TriggerSpec.onCalendar (enddate - 6 * USEC_PER_DAY),
       TriggerSpec.onCalendar (enddate - 5 * USEC_PER_DAY),
       TriggerSpec.onCalendar (enddate - 4 * USEC_PER_DAY),
       TriggerSpec.onCalendar (enddate - 3 * USEC_PER_DAY),
       TriggerSpec.onCalendar (enddate - 2 * USEC_PER_DAY),
       TriggerSpec.onCalendar (enddate - 1 * USEC_PER_DAY)] ∧
    (generate_times now enddate).length = 9 ∧
    List.Pairwise (fun a b => a < b) (calendarTimes (generate_times now enddate)) := by
  have hc : ¬ (enddate - now < USEC_PER_DAY) := not_lt.mpr h
  refine ⟨?_, ?_, ?_⟩
  · simp [generate_times, hc, WARN_DAYS]
  · simp [generate_times, hc, WARN_DAYS]
  · simp only [generate_times, hc, if_false, WARN_DAYS]
    simp [calendarTimes, List.pairwise_cons, USEC_PER_DAY]

/-- C1 witness: with the deadline two days out (so some of the nine trigger
times are already in the past relative to now), all nine entries appear. -/
theorem generate_times_far_window_witness :
    USEC_PER_DAY ≤ (40 * USEC_PER_DAY : Int) - 38 * USEC_PER_DAY ∧
    (generate_times (38 * USEC_PER_DAY) (40 * USEC_PER_DAY) =
      [TriggerSpec.onCalendar (40 * USEC_PER_DAY - 30 * USEC_PER_DAY),
       TriggerSpec.onCalendar (40 * USEC_PER_DAY - 20 * USEC_PER_DAY),
       TriggerSpec.onCalendar (40 * USEC_PER_DAY - 10 * USEC_PER_DAY),
       TriggerSpec.onCalendar (40 * USEC_PER_DAY - 6 * USEC_PER_DAY),
       TriggerSpec.onCalendar (40 * USEC_PER_DAY - 5 * USEC_PER_DAY),
       TriggerSpec.onCalendar (40 * USEC_PER_DAY - 4 * USEC_PER_DAY),
       TriggerSpec.onCalendar (40 * USEC_PER_DAY - 3 * USEC_PER_DAY),
       TriggerSpec.onCalendar (40 * USEC_PER_DAY - 2 * USEC_PER_DAY),
       TriggerSpec.onCalendar (40 * USEC_PER_DAY - 1 * USEC_PER_DAY)] ∧
    (generate_times (38 * USEC_PER_DAY) (40 * USEC_PER_DAY)).length = 9 ∧
    List.Pairwise (fun a b => a < b)
      (calendarTimes (generate_times (38 * USEC_PER_DAY) (40 * USEC_PER_DAY)))) :=
  ⟨by decide, generate_times_far_window (38 * USEC_PER_DAY) (40 * USEC_PER_DAY) (by decide)⟩

/-- C2: when less than one day remains (including a deadline already
passed), `generate_times` yields exactly one relative-delay trigger spec of
60 seconds. -/
theorem generate_times_imminent (now enddate : Int)
    (h : enddate - now < USEC_PER_DAY) :
    generate_times now enddate = [TriggerSpec.onActiveSec 60] := by
  simp [generate_times, h]

/-- C2 witness: a deadline five days in the past still yields the single
60-second relative trigger. -/
theorem generate_times_imminent_witness :
    (0 : Int) - 5 * USEC_PER_DAY < USEC_PER_DAY ∧
    generate_times (5 * USEC_PER_DAY) 0 = [TriggerSpec.onActiveSec 60] :=
  ⟨by decide, generate_times_imminent (5 * USEC_PER_DAY) 0 (by decide)⟩

/-- C3: `do_notify` shows "support has ended" exactly when `now > enddate`,
and otherwise "ends in D days" where D is the whole-day truncation toward
zero (`Int.tdiv`) of the remaining time, which is nonnegative there. -/
theorem do_notify_message_spec (now enddate : Int) :
    (enddate < now → do_notify_message now enddate = "Support for this OS has ended") ∧
    (¬ enddate < now →
      do_notify_message now enddate =
        "Support for this OS ends in " ++
          toString (Int.tdiv (enddate - now) USEC_PER_DAY) ++ " days" ∧
      0 ≤ Int.tdiv (enddate - now) USEC_PER_DAY) := by
  constructor
  · intro h
    simp [do_notify_message, h]
  · intro h
    have h0 : 0 ≤ enddate - now := by omega
    have hU : (0 : Int) ≤ USEC_PER_DAY := by decide
    have ht : Int.fdiv (enddate - now) USEC_PER_DAY = Int.tdiv (enddate - now) USEC_PER_DAY :=
      Int.fdiv_eq_tdiv h0 hU
    constructor
    · simp [do_notify_message, h, ht]
    · rw [← ht, Int.fdiv_eq_ediv _ hU]
      exact Int.ediv_nonneg h0 hU

/-- C3 witness: the spec's example, deadline 2030-01-10T00:00:00 and now
2030-01-01T12:00:00, gives D = 8. -/
theorem do_notify_message_spec_witness :
    ¬ (days_from_civil 2030 1 10 * USEC_PER_DAY <
        days_from_civil 2030 1 1 * USEC_PER_DAY + 12 * 3600 * USEC_PER_SEC) ∧
    do_notify_message (days_from_civil 2030 1 1 * USEC_PER_DAY + 12 * 3600 * USEC_PER_SEC)
        (days_from_civil 2030 1 10 * USEC_PER_DAY) =
      "Support for this OS ends in " ++
        toString (Int.tdiv (days_from_civil 2030 1 10 * USEC_PER_DAY -
          (days_from_civil 2030 1 1 * USEC_PER_DAY + 12 * 3600 * USEC_PER_SEC)) USEC_PER_DAY) ++
        " days" ∧
    Int.tdiv (days_from_civil 2030 1 10 * USEC_PER_DAY -
      (days_from_civil 2030 1 1 * USEC_PER_DAY + 12 * 3600 * USEC_PER_SEC)) USEC_PER_DAY = 8 :=
  ⟨by decide,
   ((do_notify_message_spec _ _).2 (by decide)).1,
   by decide⟩

/-- C4: the generator output is a pure function of the single `now` sample
and the deadline: one call consumes exactly one clock sample, the output
depends only on that sample, and two runs whose samples agree produce
identical sequences (the embedded output is a list, so re-enumeration is
trivially restartable). -/
theorem generate_times_pure (clock₁ clock₂ : Nat → Int) (k₁ k₂ : Nat) (enddate : Int)
    (h : clock₁ k₁ = clock₂ k₂) :
    (generate_times_clocked clock₁ k₁ enddate).1 = generate_times (clock₁ k₁) enddate ∧
    (generate_times_clocked clock₁ k₁ enddate).1 = (generate_times_clocked clock₂ k₂ enddate).1 ∧
    (generate_times_clocked clock₁ k₁ enddate).2 = k₁ + 1 := by
  refine ⟨?_, ?_, ?_⟩ <;>
  · simp only [generate_times_clocked, generate_times, h]
    split <;> rfl

/-- C4 witness: two distinct clock positions with equal samples produce the
same output, and each consumes exactly one sample. -/
theorem generate_times_pure_witness :
    (fun _ : Nat => (0 : Int)) 0 = (fun _ : Nat => (0 : Int)) 7 ∧
    ((generate_times_clocked (fun _ => 0) 0 (40 * USEC_PER_DAY)).1 =
        generate_times ((fun _ : Nat => (0 : Int)) 0) (40 * USEC_PER_DAY) ∧
     (generate_times_clocked (fun _ => 0) 0 (40 * USEC_PER_DAY)).1 =
        (generate_times_clocked (fun _ => 0) 7 (40 * USEC_PER_DAY)).1 ∧
     (generate_times_clocked (fun _ => 0) 0 (40 * USEC_PER_DAY)).2 = 0 + 1) :=
  ⟨rfl, generate_times_pure (fun _ => 0) (fun _ => 0) 0 7 (40 * USEC_PER_DAY) rfl⟩

/-- C5: `support_end` fails exactly when the override is absent (unset or
empty) and the os-release field is missing, or when the value selected for
parsing does not parse as a `YYYY-MM-DD` calendar date; and it succeeds with
`d` exactly when the selected value parses to `d` — no default deadline is
ever invented. -/
theorem support_end_error_spec (env osr : Option String) :
    ((∃ e, support_end env osr = Except.error e) ↔
      (((env = none ∨ env = some "") ∧ osr = none) ∨
       (∃ v, effective_value env osr = some v ∧ parse_date v = none))) ∧
    (∀ d : Int, support_end env osr = Except.ok d ↔
      (∃ v, effective_value env osr = some v ∧ parse_date v = some d)) := by
  have hosr : ∀ d : Int,
      (support_end_from_osr osr = Except.ok d ↔
        (∃ v, osr = some v ∧ parse_date v = some d)) ∧
      ((∃ e, support_end_from_osr osr = Except.error e) ↔
        (osr = none ∨ ∃ v, osr = some v ∧ parse_date v = none)) := by
    intro d
    cases osr with
    | none => simp [support_end_from_osr]
    | some v =>
      cases hv : parse_date v <;>
        simp [support_end_from_osr, parse_or_error, hv]
  cases env with
  | none =>
    constructor
    · simpa [support_end, effective_value, Option.eq_none_iff_forall_not_mem] using
        ((hosr 0).2).trans (by simp [Option.eq_none_iff_forall_not_mem])
    · intro d
      simpa [support_end, effective_value] using (hosr d).1
  | some v =>
    by_cases hv : v = ""
    · subst hv
      constructor
      · simpa [support_end, effective_value] using
          ((hosr 0).2).trans (by simp [Option.eq_none_iff_forall_not_mem])
      · intro d
        simpa [support_end, effective_value] using (hosr d).1
    · constructor
      · cases hp : parse_date v <;>
          simp [support_end, effective_value, hv, parse_or_error, hp]
      · intro d
        cases hp : parse_date v <;>
          simp [support_end, effective_value, hv, parse_or_error, hp]

/-- C9: an empty `SUPPORT_END` override behaves exactly like an unset one —
`support_end` falls back to the os-release field — and with no os-release
field the failure is the lookup `KeyError`, not a parse error on the empty
string. -/
theorem support_end_empty_override (osr : Option String) :
    support_end (some "") osr = support_end none osr ∧
    support_end (some "") none = Except.error ConfigError.keyError := by
  constructor
  · simp [support_end]
  · simp [support_end, support_end_from_osr]

/-- C6: when deadline resolution fails, status mode reports the failure
description (no crash), while notify mode and generator mode produce no
output at all — the dispatch reaches neither `do_notify` nor
`generate_units`, a silent no-op. -/
theorem main_dispatch_config_error (args : Args) (env osr : Option String)
    (now : Int) (e : ConfigError) (h : support_end env osr = Except.error e) :
    (args.notify = false → args.normal_dir = none →
      main_dispatch args env osr now = MainResult.statusErr e) ∧
    (args.notify = true → args.normal_dir = none →
      main_dispatch args env osr now = MainResult.noop) ∧
    (args.notify = false → args.normal_dir ≠ none →
      main_dispatch args env osr now = MainResult.noop) := by
  refine ⟨?_, ?_, ?_⟩ <;> intro h1 h2 <;>
    simp [main_dispatch, h, h1, h2]

/-- C6 witness: with no override and no os-release field, notify mode is a
silent no-op. -/
theorem main_dispatch_config_error_witness :
    support_end none none = Except.error ConfigError.keyError ∧
    main_dispatch ⟨none, none, none, true⟩ none none 0 = MainResult.noop :=
  ⟨rfl, (main_dispatch_config_error ⟨none, none, none, true⟩ none none 0
    ConfigError.keyError rfl).2.1 rfl rfl⟩

/-- C7: the timer file consists of the header followed by one rendered
directive line per trigger spec in generation order, and a generated
sequence is never mixed: either every spec is relative (rendered as
`OnActiveSec=<seconds>`) or every spec is absolute (rendered as
`OnCalendar=<iso8601>`). -/
theorem trigger_serialisation_uniform (now enddate : Int) :
    generate_units_timer_lines now enddate =
      "[Timer]" :: (generate_times now enddate).map TriggerSpec.render ∧
    ((∀ s ∈ generate_times now enddate, ∃ n : Int,
        s = TriggerSpec.onActiveSec n ∧
        TriggerSpec.render s = "OnActiveSec=" ++ toString n) ∨
     (∀ s ∈ generate_times now enddate, ∃ t : Int,
        s = TriggerSpec.onCalendar t ∧
        TriggerSpec.render s = "OnCalendar=" ++ isoformat t)) := by
  refine ⟨rfl, ?_⟩
  by_cases h : enddate - now < USEC_PER_DAY
  · left
    intro s hs
    simp [generate_times, h] at hs
    exact ⟨60, hs, by simp [hs, TriggerSpec.render]⟩
  · right
    intro s hs
    simp [generate_times, h, WARN_DAYS] at hs
    rcases hs with hs | hs | hs | hs | hs | hs | hs | hs | hs <;>
      exact ⟨_, hs, by rw [hs]; rfl⟩

/-- C7 witness: the imminent case writes exactly the header and the single
relative directive line. -/
theorem trigger_serialisation_uniform_witness :
    generate_units_timer_lines 0 0 = ["[Timer]", "OnActiveSec=60"] := by
  have h := (trigger_serialisation_uniform 0 0).1
  rw [h]
  decide

/-- C8: supplying a positional directory together with `--notify` makes the
dispatch exit with the usage error and status 1, before any schedule
generation or notification decision runs, whatever the configuration held.
-/
theorem main_dispatch_usage_error (args : Args) (env osr : Option String)
    (now : Int) (p : String)
    (hn : args.notify = true) (hd : args.normal_dir = some p) :
    main_dispatch args env osr now =
      MainResult.usageError "No positional args are allowed with --notify" ∧
    main_exit_code (main_dispatch args env osr now) = 1 := by
  have h1 : main_dispatch args env osr now =
      MainResult.usageError "No positional args are allowed with --notify" := by
    simp [main_dispatch, hn, hd]
  exact ⟨h1, by rw [h1]; rfl⟩

/-- C8 witness: a concrete invocation with a positional directory and
`--notify`, on a configuration that would otherwise generate a schedule. -/
theorem main_dispatch_usage_error_witness :
    (Args.mk (some "/run/systemd/generator") none none true).notify = true ∧
    (Args.mk (some "/run/systemd/generator") none none true).normal_dir =
      some "/run/systemd/generator" ∧
    (main_dispatch (Args.mk (some "/run/systemd/generator") none none true)
        (some "2030-01-05") none 0 =
      MainResult.usageError "No positional args are allowed with --notify" ∧
    main_exit_code (main_dispatch (Args.mk (some "/run/systemd/generator") none none true)
        (some "2030-01-05") none 0) = 1) :=
  ⟨rfl, rfl, main_dispatch_usage_error _ (some "2030-01-05") none 0 _ rfl rfl⟩

/-- Helper: a successful parse is midnight-aligned, since it is a whole
number of days times `USEC_PER_DAY`. -/
theorem parse_date_midnight (s : String) (t : Int) (h : parse_date s = some t) :
    Int.emod t USEC_PER_DAY = 0 := by
  unfold parse_date at h
  split at h
  · split at h
    · dsimp only at h
      split at h
      · injection h with h'
        subst h'
        exact Int.mul_emod_left _ _
      · exact absurd h (by simp)
    · exact absurd h (by simp)
  · exact absurd h (by simp)

/-- Helper: a successful `support_end` result comes from parsing some
string. -/
theorem support_end_ok_parse (env osr : Option String) (d : Int)
    (h : support_end env osr = Except.ok d) :
    ∃ v, parse_date v = some d := by
  have hfrom : ∀ o : Option String, support_end_from_osr o = Except.ok d →
      ∃ v, parse_date v = some d := by
    intro o ho
    cases o with
    | none => exact absurd ho (by simp [support_end_from_osr])
    | some v =>
      refine ⟨v, ?_⟩
      cases hv : parse_date v <;>
        simp [support_end_from_osr, parse_or_error, hv] at ho
      simp [ho]
  cases env with
  | none => exact hfrom osr h
  | some v =>
    by_cases hv : v = ""
    · subst hv
      exact hfrom osr (by simpa [support_end] using h)
    · refine ⟨v, ?_⟩
      cases hp : parse_date v <;>
        simp [support_end, hv, parse_or_error, hp] at h
      simp [h]

/-- C10: every successfully resolved deadline is midnight-aligned (the
`YYYY-MM-DD` parse yields time-of-day 00:00:00), and, the warn offsets all
being whole days, every absolute-time trigger `generate_times` emits from it
is midnight-aligned too. -/
theorem deadline_midnight_invariant (env osr : Option String) (d : Int)
    (h : support_end env osr = Except.ok d) :
    Int.emod d USEC_PER_DAY = 0 ∧
    ∀ now t, TriggerSpec.onCalendar t ∈ generate_times now d →
      Int.emod t USEC_PER_DAY = 0 := by
  obtain ⟨v, hv⟩ := support_end_ok_parse env osr d h
  have hd0 := parse_date_midnight v d hv
  refine ⟨hd0, ?_⟩
  intro now t ht
  by_cases hc : d - now < USEC_PER_DAY
  · simp [generate_times, hc] at ht
  · simp [generate_times, hc, WARN_DAYS] at ht
    rcases ht with ht | ht | ht | ht | ht | ht | ht | ht | ht <;> subst ht <;>
      first
        | exact emod_day_sub_days d _ hd0
        | simpa using emod_day_sub_days d 1 hd0

/-- C10 witness: a concrete resolved deadline and the alignment of its
value. -/
theorem deadline_midnight_invariant_witness :
    support_end (some "2030-01-05") none = Except.ok (21919 * USEC_PER_DAY) ∧
    Int.emod (21919 * USEC_PER_DAY) USEC_PER_DAY = 0 :=
  ⟨by rfl,
   (deadline_midnight_invariant (some "2030-01-05") none (21919 * USEC_PER_DAY)
     (by rfl)).1⟩
